import Mathlib

/-!
Verification development for the AI_ToolBox repository.

The repository is a thin orchestration layer over the Groq chat-completion
API: a `GroqService` class (src/app/services/groq_service.py) owning request
construction, model routing and tolerant JSON extraction, plus Streamlit
pages that call it.  This file gives a shallow embedding of that service
layer and of the transcript-truncation logic of the YouTube page, and proves
the specification claims about them.

Modelling conventions:
- Python strings are Lean `String`s (a Python `str` index/slice counts code
  points, matching `String.data : List Char`).
- The remote transport (`self.client.chat.completions.create`) is an oracle
  parameter `transport : GroqParams → Except String String`; `.error e`
  models the call raising an exception whose `str` is `e`.
- A Python function that may raise `json.JSONDecodeError` is modelled with
  `Option` (`none` = the error is raised).
- Feature results (Python dicts built by dict literals) are association
  lists `List (String × Json)`.
-/

/-- JSON values, as produced by Python `json.loads` on the fragment this
repository exchanges with the model.  Numbers are modelled as integers:
the repository's prompts and fallbacks only ever exchange integral numbers,
and float literals are treated as outside the model (the parser rejects
them, see `parseNumber`). -/
inductive Json where
  | null : Json
  | bool (b : Bool) : Json
  | num (n : Int) : Json
  | str (s : String) : Json
  | arr (elems : List Json) : Json
  | obj (members : List (String × Json)) : Json

/-- Whitespace skipped by the JSON grammar (`json.loads`): space, tab,
newline, carriage return. -/
def isJsonWs (c : Char) : Bool :=
  c = ' ' || c = '\t' || c = '\n' || c = '\r'

/-- Whitespace matched by the Python regex class `\s` (ASCII fragment;
the repository's fenced blocks only ever use ASCII whitespace). -/
def isWs (c : Char) : Bool :=
  c = ' ' || c = '\t' || c = '\n' || c = '\r' || c = '\x0b' || c = '\x0c'

/-- Drop leading JSON whitespace. -/
def skipWs : List Char → List Char
  | [] => []
  | c :: rest => if isJsonWs c then skipWs rest else c :: rest

/-- JSON string escapes accepted by `json.loads` (the `\uXXXX` form is
outside the model: the repository never exchanges it). -/
def escChar : Char → Option Char
  | '"' => some '"'
  | '\\' => some '\\'
  | '/' => some '/'
  | 'b' => some (Char.ofNat 8)
  | 'f' => some (Char.ofNat 12)
  | 'n' => some '\n'
  | 'r' => some '\r'
  | 't' => some '\t'
  | _ => none

/-- Parse the body of a JSON string after the opening quote, returning the
decoded characters and the remainder after the closing quote.  Mirrors
`json.loads` strict mode: unescaped control characters are rejected. -/
def parseStringBody : List Char → Option (List Char × List Char)
  | [] => none
  | '"' :: rest => some ([], rest)
  | ['\\'] => none
  | '\\' :: e :: rest =>
    match escChar e with
    | some c =>
      match parseStringBody rest with
      | some (s, r) => some (c :: s, r)
      | none => none
    | none => none
  | c :: rest =>
    if c.toNat < 32 then none
    else
      match parseStringBody rest with
      | some (s, r) => some (c :: s, r)
      | none => none

/-- Parse a JSON number.  Integral literals only: a fractional part or an
exponent makes `json.loads` return a float, which is outside this model, so
the parser rejects those inputs (no claim depends on them). -/
def parseNumber (cs : List Char) : Option (Json × List Char) :=
  let (neg, cs1) := match cs with
    | '-' :: rest => (true, rest)
    | _ => (false, cs)
  let ds := cs1.takeWhile (fun c => c.isDigit)
  let rest := cs1.dropWhile (fun c => c.isDigit)
  if ds.isEmpty then none
  else if 1 < ds.length && ds.headD '0' = '0' then none
  else
    match rest with
    | '.' :: _ => none
    | 'e' :: _ => none
    | 'E' :: _ => none
    | _ =>
      let n : Nat := ds.foldl (fun acc c => acc * 10 + (c.toNat - 48)) 0
      some (.num (if neg then -(n : Int) else (n : Int)), rest)

/-- Parser modes: a full value, the elements of an array after `[`, or the
members of an object after `{` (both after ruling out the empty case). -/
inductive PMode where
  | value : PMode
  | arrayRest : PMode
  | objectRest : PMode

/-- Recursive-descent JSON parser (fuel-indexed so that recursion is
structural).  In modes `arrayRest`/`objectRest` the returned value is always
`Json.arr` / `Json.obj`. -/
def parseCore : Nat → PMode → List Char → Option (Json × List Char)
  | 0, _, _ => none
  | fuel + 1, PMode.value, cs0 =>
    match skipWs cs0 with
    | [] => none
    | 'n' :: 'u' :: 'l' :: 'l' :: rest => some (.null, rest)
    | 't' :: 'r' :: 'u' :: 'e' :: rest => some (.bool true, rest)
    | 'f' :: 'a' :: 'l' :: 's' :: 'e' :: rest => some (.bool false, rest)
    | '"' :: rest =>
      match parseStringBody rest with
      | some (s, r) => some (.str (String.mk s), r)
      | none => none
    | '[' :: rest =>
      match skipWs rest with
      | ']' :: r => some (.arr [], r)
      | cs2 => parseCore fuel PMode.arrayRest cs2
    | '{' :: rest =>
      match skipWs rest with
      | '}' :: r => some (.obj [], r)
      | cs2 => parseCore fuel PMode.objectRest cs2
    | cs => parseNumber cs
  | fuel + 1, PMode.arrayRest, cs =>
    match parseCore fuel PMode.value cs with
    | some (v, rest) =>
      match skipWs rest with
      | ',' :: rest2 =>
        match parseCore fuel PMode.arrayRest rest2 with
        | some (Json.arr vs, r) => some (.arr (v :: vs), r)
        | _ => none
      | ']' :: rest2 => some (.arr [v], rest2)
      | _ => none
    | none => none
  | fuel + 1, PMode.objectRest, cs0 =>
    match skipWs cs0 with
    | '"' :: rest =>
      match parseStringBody rest with
      | some (key, rest2) =>
        match skipWs rest2 with
        | ':' :: rest3 =>
          match parseCore fuel PMode.value rest3 with
          | some (v, rest4) =>
            match skipWs rest4 with
            | ',' :: rest5 =>
              match parseCore fuel PMode.objectRest rest5 with
              | some (Json.obj kvs, r) => some (.obj ((String.mk key, v) :: kvs), r)
              | _ => none
            | '}' :: rest5 => some (.obj [(String.mk key, v)], rest5)
            | _ => none
          | none => none
        | _ => none
      | none => none
    | _ => none

/-- Model of Python `json.loads`: parse one value and require that only
whitespace follows (otherwise `json.loads` raises "Extra data").
`none` models a raised `json.JSONDecodeError`. -/
def jsonLoads (s : String) : Option Json :=
  match parseCore (s.length + 1) PMode.value s.data with
  | some (j, rest) => if (skipWs rest).isEmpty then some j else none
  | none => none

/-- The backtick character (written escaped throughout this file). -/
def tickChar : Char := '\x60'

/-- The literal `\x60\x60\x60json` opening a tagged fenced block. -/
def fenceJsonOpen : List Char :=
  [tickChar, tickChar, tickChar, 'j', 's', 'o', 'n']

/-- The literal `\x60\x60\x60` fence delimiter. -/
def fenceTicks : List Char := [tickChar, tickChar, tickChar]

/-- Index of the first occurrence of a triple-backtick in the list. -/
def findTicksIdx : List Char → Option Nat
  | [] => none
  | c :: rest =>
    if fenceTicks.isPrefixOf (c :: rest) then some 0
    else (findTicksIdx rest).map (· + 1)

/-- Strip trailing regex-`\s` whitespace. -/
def dropTrailingWs (cs : List Char) : List Char :=
  (cs.reverse.dropWhile isWs).reverse

/-- Capture group of `\s*(.*?)\s*` + closing fence, applied to the text that
follows an opening fence: greedily drop leading whitespace, close at the
first following triple-backtick (the lazy `(.*?)` and the greedy trailing
`\s*` make the capture the interior with leading and trailing whitespace
stripped).  `none` when no closing fence exists, in which case the regex
engine advances its start position. -/
def captureFence (rest : List Char) : Option (List Char) :=
  let rest1 := rest.dropWhile isWs
  match findTicksIdx rest1 with
  | some q => some (dropTrailingWs (rest1.take q))
  | none => none

/-- Model of `re.search(r'\x60\x60\x60json\s*(.*?)\s*\x60\x60\x60', content,
re.DOTALL)`: scan left to right for a position where the tagged opening
fence matches and a closing fence follows, and return the capture group. -/
def searchTagged : List Char → Option (List Char)
  | [] => none
  | c :: rest =>
    if fenceJsonOpen.isPrefixOf (c :: rest) then
      match captureFence ((c :: rest).drop 7) with
      | some body => some body
      | none => searchTagged rest
    else searchTagged rest

/-- Model of `re.search(r'\x60\x60\x60\s*(.*?)\s*\x60\x60\x60', content,
re.DOTALL)`: same as `searchTagged` for an untagged fence. -/
def searchAny : List Char → Option (List Char)
  | [] => none
  | c :: rest =>
    if fenceTicks.isPrefixOf (c :: rest) then
      match captureFence ((c :: rest).drop 3) with
      | some body => some body
      | none => searchAny rest
    else searchAny rest

/-- `GroqService._extract_json`: if a tagged fenced block matches, `content`
becomes its capture; otherwise, if an untagged fenced block matches,
`content` becomes that capture; the (possibly replaced) content is then
given to `json.loads`.  `none` models the raised `json.JSONDecodeError`. -/
def extract_json (content : String) : Option Json :=
  match searchTagged content.data with
  | some body => jsonLoads (String.mk body)
  | none =>
    match searchAny content.data with
    | some body => jsonLoads (String.mk body)
    | none => jsonLoads content

/-- A typed part of a multimodal message: a text part or an image-URL
reference part. -/
inductive ContentPart where
  | text (s : String) : ContentPart
  | imageUrl (url : String) : ContentPart

/-- Content of one chat message: plain text for text operations, or a list
of typed parts for the multimodal vision call. -/
inductive MsgContent where
  | text (s : String) : MsgContent
  | parts (ps : List ContentPart) : MsgContent

/-- One role-tagged message of a completion request. -/
structure Message where
  role : String
  content : MsgContent

/-- The complete parameter set a call builds before dispatch (the `params`
dict of `GroqService._call_groq`, and the keyword arguments of the direct
`create` call in `analyze_image`).  `stop` is always `None` and
`temperature`/`top_p` are always the integer 1 in this repository, so they
are modelled as `Option String`/`Nat`. -/
structure GroqParams where
  model : String
  messages : List Message
  temperature : Nat
  maxCompletionTokens : Nat
  topP : Nat
  stream : Bool
  stop : Option String
  reasoningEffort : Option String

/-- The remote transport (`self.client.chat.completions.create`), supplied
as an oracle: `.ok content` models a successful completion whose message
content is `content`; `.error e` models the call raising an exception whose
`str` is `e`. -/
def Transport : Type := GroqParams → Except String String

/-- Python truthiness of `m or d` for an optional string argument:
`None` and `""` fall back to the default. -/
def pyOrStr : Option String → String → String
  | none, d => d
  | some s, d => if s = "" then d else s

/-- Substring test, modelling Python's `needle in hay` on strings. -/
def containsSub (hay needle : List Char) : Bool :=
  match hay with
  | [] => needle.isEmpty
  | _ :: t => needle.isPrefixOf hay || containsSub t needle

namespace GroqService

/-- `GroqService.TEXT_MODEL` — model for text operations. -/
def TEXT_MODEL : String := "openai/gpt-oss-120b"

/-- `GroqService.IMAGE_MODEL` — model for image/vision operations. -/
def IMAGE_MODEL : String := "meta-llama/llama-4-maverick-17b-128e-instruct"

/-- `GroqService.DEFAULT_MODEL`. -/
def DEFAULT_MODEL : String := "openai/gpt-oss-120b"

/-- The parameter set `GroqService._call_groq` builds: resolve the model
(`model or self.DEFAULT_MODEL`), fill every field, and attach the
`reasoning_effort = "medium"` hint exactly when `use_reasoning` is set and
the resolved model identifier contains `"gpt-oss"`. -/
def call_groq_params (messages : List Message) (model : Option String)
    (temperature maxTokens : Nat) (useReasoning : Bool) : GroqParams :=
  let m := pyOrStr model DEFAULT_MODEL
  { model := m
    messages := messages
    temperature := temperature
    maxCompletionTokens := maxTokens
    topP := 1
    stream := false
    stop := none
    reasoningEffort :=
      if useReasoning && containsSub m.data "gpt-oss".data then some "medium"
      else none }

/-- `GroqService._call_groq`: dispatch the built parameter set and, on any
transport exception, re-raise `Exception(f"Groq API error: {str(e)}")`. -/
def call_groq (transport : Transport) (messages : List Message)
    (model : Option String) (temperature maxTokens : Nat)
    (useReasoning : Bool) : Except String String :=
  match transport (call_groq_params messages model temperature maxTokens useReasoning) with
  | .ok content => .ok content
  | .error e => .error ("Groq API error: " ++ e)

end GroqService

/-- A feature-function result: a Python dict built from a dict literal,
modelled as an association list in literal order (keys of each literal are
distinct). -/
abbrev RDict : Type := List (String × Json)

/-- Python `k in d` for a result dict. -/
def hasKey (d : RDict) (k : String) : Bool :=
  d.any (fun kv => kv.1 == k)

/-- Lookup in a result dict. -/
def rget (d : RDict) (k : String) : Option Json :=
  match d with
  | [] => none
  | kv :: rest => if kv.1 = k then some kv.2 else rget rest k

/-- Lookup in a parsed JSON object, with Python-dict semantics: `json.loads`
builds its dict left to right, so a duplicated key keeps the last value. -/
def objGet (kvs : List (String × Json)) (k : String) : Option Json :=
  kvs.foldl (fun acc kv => if kv.1 = k then some kv.2 else acc) none

/-- Python `str.strip()` (ASCII-whitespace fragment). -/
def pyStrip (s : String) : String :=
  String.mk (dropTrailingWs (s.data.dropWhile isWs))

/-- Placeholder for the message of the `TypeError` Python raises when a
parsed result is not a dict and the feature function subscripts it; the
generic `except Exception` handler turns it into an error dict.  The exact
message text is irrelevant to every claim. -/
def typeErrorMsg : String := "TypeError: parsed result is not a dict"

namespace GroqService

/-- The grammar-check prompt up to the interpolated `{text}`. -/
def grammarPromptPart1 : String :=
  "You are a professional editor and an expert grammar tutor. Check the following text for grammar and spelling errors, factual errors, word choice issues, and suggest better word combinations.\n"
  ++ "        \n"
  ++ "Original text: "

/-- The grammar-check prompt after the interpolated `{text}`. -/
def grammarPromptPart2 : String :=
  "\n\nProvide your response in the following JSON format:\n\n"
  ++ "\x60\x60\x60json\n"
  ++ "\x7b\n"
  ++ "  \"corrected_text\": \"The corrected version of the text with ONLY grammatical errors fixed. DO NOT completely paraphrase the text.\",\n"
  ++ "  \"corrections\": [\n"
  ++ "    \x7b\n"
  ++ "      \"error\": \"The original error text (the exact part of the sentence that is incorrect)\",\n"
  ++ "      \"suggestion\": \"The corrected version of that specific part\",\n"
  ++ "      \"type\": \"The type of error (e.g., spelling, grammar, punctuation, subject-verb agreement, verb tense, noun form, article usage, factual error, word choice, word combination)\",\n"
  ++ "      \"explanation\": \"A brief, clear explanation of why this specific part is an error and how the suggestion fixes it.\",\n"
  ++ "      \"grammar_rule\": \x7b\n"
  ++ "        \"rule_name\": \"A concise name for the grammar rule that was violated\",\n"
  ++ "        \"description\": \"A detailed but simple, beginner-friendly explanation of the grammar rule.\",\n"
  ++ "        \"correct_examples\": [\"Example 1\", \"Example 2\"],\n"
  ++ "        \"incorrect_examples\": [\"Incorrect example 1\", \"Incorrect example 2\"]\n"
  ++ "      \x7d\n"
  ++ "    \x7d\n"
  ++ "  ]\n"
  ++ "\x7d\n"
  ++ "\x60\x60\x60\n\n"
  ++ "IMPORTANT INSTRUCTIONS:\n"
  ++ "1. For the \"corrected_text\", maintain the original text structure and only fix actual errors. DO NOT completely rewrite or paraphrase the text.\n"
  ++ "2. Only suggest complete paraphrasing when the correction type is specifically \"word combination\".\n"
  ++ "3. For grammatical errors, make minimal changes necessary to fix the specific issue.\n"
  ++ "4. Identify actual errors only - don\x27t suggest stylistic changes unless they\x27re grammatically incorrect.\n"
  ++ "5. For each correction, the \"error\" field must contain the exact text from the original that contains the error.\n\n"
  ++ "If there are no errors in the original text, return the original text as \"corrected_text\" and an empty array for \"corrections\".\n"
  ++ "Ensure the JSON is well-formed."

/-- `GroqService.check_grammar`: build the prompt, dispatch through
`_call_groq`, extract JSON, default-fill `corrected_text`/`corrections`.
A `json.JSONDecodeError` from extraction is caught and the raw response is
returned as the corrected text with empty corrections (`response` is always
bound there, since the decode error can only come from `_extract_json`); a
parsed non-dict result makes the subscripting raise `TypeError`, which the
generic handler converts to an error dict; any other exception (i.e. the
wrapped transport error) also becomes an error dict. -/
def check_grammar (transport : Transport) (text : String)
    (model : Option String) : RDict :=
  let prompt := grammarPromptPart1 ++ text ++ grammarPromptPart2
  let messages : List Message := [⟨"user", MsgContent.text prompt⟩]
  match call_groq transport messages (some (pyOrStr model TEXT_MODEL)) 1 8192 true with
  | .error e => [("error", Json.str e)]
  | .ok response =>
    match extract_json response with
    | none =>
      [("original_text", Json.str text),
       ("corrected_text", Json.str response),
       ("corrections", Json.arr [])]
    | some (Json.obj kvs) =>
      [("original_text", Json.str text),
       ("corrected_text", (objGet kvs "corrected_text").getD (Json.str text)),
       ("corrections", (objGet kvs "corrections").getD (Json.arr []))]
    | some _ => [("error", Json.str typeErrorMsg)]

/-- The fixed system prompt of `GroqService.chat`. -/
def chatSystemPrompt : String :=
  "You are a helpful, friendly, and knowledgeable AI assistant. You provide accurate, \n"
  ++ "thoughtful responses to user questions. You\x27re designed to be helpful, harmless, and honest.\n"
  ++ "If you don\x27t know something, admit it rather than making up information.\n"
  ++ "If the question is unclear, ask for clarification. If the question is inappropriate, politely decline to answer."

/-- The message list `GroqService.chat` builds: the system prompt, then —
when the history is truthy — each history entry appended in order, then the
new user message. -/
def chatMessages (message : String) (history : List Message) : List Message :=
  let messages : List Message := [⟨"system", MsgContent.text chatSystemPrompt⟩]
  let messages := if history.isEmpty then messages else messages ++ history
  messages ++ [⟨"user", MsgContent.text message⟩]

/-- `GroqService.chat`: dispatch the built message list; wrap the response,
or the caught exception, in a result dict. -/
def chat (transport : Transport) (message : String) (history : List Message)
    (model : Option String) : RDict :=
  match call_groq transport (chatMessages message history)
      (some (pyOrStr model TEXT_MODEL)) 1 8192 true with
  | .ok response => [("response", Json.str response)]
  | .error e => [("error", Json.str e)]

/-- The paraphrase prompt up to the interpolated `{text}`. -/
def paraphrasePromptPart1 : String :=
  "You are an expert language paraphraser. Your task is to paraphrase the given text according to the specified style.\n\n"
  ++ "Original text: "

/-- The paraphrase prompt between `{text}` and `{style}`. -/
def paraphrasePromptPart2 : String := "\nStyle: "

/-- The paraphrase prompt after the interpolated `{style}`. -/
def paraphrasePromptPart3 : String :=
  "\n\nStyle Guidelines:\n"
  ++ "- Fluency: Make the text flow naturally and smoothly, focusing on readability.\n"
  ++ "- Humanize: Make the text sound more conversational, warm, and relatable.\n"
  ++ "- Formal: Use professional language, avoid contractions, and maintain a respectful tone.\n"
  ++ "- Academic: Use scholarly language, precise terminology, and complex sentence structures.\n"
  ++ "- Simple: Use straightforward language, short sentences, and common words.\n"
  ++ "- Creative: Use vivid language, metaphors, and unique expressions.\n"
  ++ "- Shorten: Condense the text while preserving the key information.\n\n"
  ++ "Provide only the paraphrased text without any additional comments or explanations."

/-- `GroqService.paraphrase`: build the style prompt, dispatch, return the
stripped response with the original text and style, or an error dict. -/
def paraphrase (transport : Transport) (text style : String)
    (model : Option String) : RDict :=
  let prompt := paraphrasePromptPart1 ++ text ++ paraphrasePromptPart2 ++ style
    ++ paraphrasePromptPart3
  let messages : List Message := [⟨"user", MsgContent.text prompt⟩]
  match call_groq transport messages (some (pyOrStr model TEXT_MODEL)) 1 8192 true with
  | .ok response =>
    [("original_text", Json.str text),
     ("paraphrased_text", Json.str (pyStrip response)),
     ("style", Json.str style)]
  | .error e => [("error", Json.str e)]

/-- The plagiarism prompt up to the interpolated `{text}`. -/
def plagiarismPromptPart1 : String :=
  "You are a plagiarism detection system. Given the input text, you must:\n\n"
  ++ "1. Check if the text is likely AI-generated or copied from online sources.\n"
  ++ "2. Compare it to your training data and common knowledge sources (e.g., Wikipedia, essays, articles).\n"
  ++ "3. Analyze for typical AI-generated patterns like:\n"
  ++ "   - Balanced paragraph structure with intro-middle-conclusion\n"
  ++ "   - Transition phrases like \"In conclusion\", \"On the one hand...\", etc.\n"
  ++ "   - Overly clean grammar without typos\n"
  ++ "   - High-level vocabulary but no personal tone\n"
  ++ "   - Generic or commonly seen ChatGPT-style answers\n"
  ++ "   - Wordy, robotic, or unnaturally perfect phrasing\n\n"
  ++ "Return a JSON object with the following fields:\n"
  ++ "- plagiarism_score: A number from 0 to 100 indicating the likelihood of plagiarism or AI-generation\n"
  ++ "- flagged_sentences: An array of sentences that appear to be copied or AI-generated\n"
  ++ "- feedback: Detailed explanation of why certain parts were flagged and suggestions for improvement\n\n"
  ++ "Here is the text to analyze:\n"

/-- The plagiarism prompt after the interpolated `{text}`. -/
def plagiarismPromptPart2 : String :=
  "\n\nRespond with ONLY a valid JSON object following this format:\n"
  ++ "\x60\x60\x60json\n"
  ++ "\x7b\n"
  ++ "  \"plagiarism_score\": 78,\n"
  ++ "  \"flagged_sentences\": [\n"
  ++ "    \"Artificial intelligence is transforming every industry in the modern world.\",\n"
  ++ "    \"In conclusion, technology will shape the future of education.\"\n"
  ++ "  ],\n"
  ++ "  \"feedback\": \"These sentences appear overly generic and match patterns often seen in AI-generated or public content. Consider personalizing or adding specific references.\"\n"
  ++ "\x7d\n"
  ++ "\x60\x60\x60"

/-- `GroqService.check_plagiarism`: build the prompt, dispatch, extract
JSON, default-fill the three structured keys
(`plagiarism_score`/`flagged_sentences`/`feedback`), and return the
four-key result.  A `json.JSONDecodeError` is caught and replaced by the
fixed fallback dict; a parsed non-dict makes the membership test or the
subscripting raise `TypeError`, converted by the generic handler; the
wrapped transport error becomes an error dict. -/
def check_plagiarism (transport : Transport) (text : String)
    (model : Option String) : RDict :=
  let prompt := plagiarismPromptPart1 ++ text ++ plagiarismPromptPart2
  let messages : List Message := [⟨"user", MsgContent.text prompt⟩]
  match call_groq transport messages (some (pyOrStr model TEXT_MODEL)) 1 8192 true with
  | .error e => [("error", Json.str e)]
  | .ok response =>
    match extract_json response with
    | none =>
      [("original_text", Json.str text),
       ("plagiarism_score", Json.num 0),
       ("flagged_sentences", Json.arr []),
       ("feedback", Json.str "Unable to analyze text. Please try again.")]
    | some (Json.obj kvs) =>
      [("original_text", Json.str text),
       ("plagiarism_score", (objGet kvs "plagiarism_score").getD (Json.num 0)),
       ("flagged_sentences", (objGet kvs "flagged_sentences").getD (Json.arr [])),
       ("feedback", (objGet kvs "feedback").getD (Json.str "No issues detected in the text."))]
    | some _ => [("error", Json.str typeErrorMsg)]

/-- The transcript-summary prompt up to the interpolated `{title_context}`. -/
def summarizePromptPart1 : String :=
  "You are an expert content summarizer. Your task is to create a comprehensive yet concise summary of the following YouTube video transcript.\n"

/-- The transcript-summary prompt between `{title_context}` and
`{transcript}`. -/
def summarizePromptPart2 : String := "\n\nTranscript:\n"

/-- The transcript-summary prompt after the interpolated `{transcript}`. -/
def summarizePromptPart3 : String :=
  "\n\nPlease provide:\n"
  ++ "1. A brief overview (2-3 sentences)\n"
  ++ "2. Key points discussed in the video (bullet points)\n"
  ++ "3. Main takeaways or conclusions\n\n"
  ++ "Format your response clearly with headers."

/-- `GroqService.summarize_youtube`: build the summary prompt (the title
context line only when a title is given), dispatch with a 2048
max-token ceiling, and wrap the summary — the title falling back to
"YouTube Video Summary" — or the caught exception. -/
def summarize_youtube (transport : Transport) (transcript videoTitle : String)
    (model : Option String) : RDict :=
  let titleContext := if videoTitle = "" then "" else "\nVideo Title: " ++ videoTitle
  let prompt := summarizePromptPart1 ++ titleContext ++ summarizePromptPart2
    ++ transcript ++ summarizePromptPart3
  let messages : List Message := [⟨"user", MsgContent.text prompt⟩]
  match call_groq transport messages (some (pyOrStr model TEXT_MODEL)) 1 2048 true with
  | .ok response =>
    [("summary", Json.str response),
     ("title", Json.str (if videoTitle = "" then "YouTube Video Summary" else videoTitle))]
  | .error e => [("error", Json.str e)]

/-- The parameter set `GroqService.analyze_image` passes directly to
`self.client.chat.completions.create`: the vision model unless overridden,
a single user message whose content is a list of a text part and an
image-URL part, and a 1024 max-completion-token ceiling.  No
`reasoning_effort` is ever attached here. -/
def analyze_image_params (imageUrl prompt : String) (model : Option String) : GroqParams :=
  { model := pyOrStr model IMAGE_MODEL
    messages := [⟨"user", MsgContent.parts
      [ContentPart.text prompt, ContentPart.imageUrl imageUrl]⟩]
    temperature := 1
    maxCompletionTokens := 1024
    topP := 1
    stream := false
    stop := none
    reasoningEffort := none }

/-- `GroqService.analyze_image`: dispatch the vision request directly on
the client (not through `_call_groq`, so a transport exception is not
wrapped) and wrap the completion content, or the caught exception, in a
result dict. -/
def analyze_image (transport : Transport) (imageUrl prompt : String)
    (model : Option String) : RDict :=
  match transport (analyze_image_params imageUrl prompt model) with
  | .ok content => [("analysis", Json.str content)]
  | .error e => [("error", Json.str e)]

end GroqService

/-- The truncation marker appended by `summarize_video`
(src/pages/Youtube_summarizer.py). -/
def truncMarker : String := "... [transcript truncated]"

/-- The transcript `summarize_video` dispatches: transcripts longer than
`max_chars = 15000` characters are cut to the first 15000 characters and
annotated with the truncation marker (`transcript[:max_chars] + "... [transcript truncated]"`);
shorter transcripts pass through unchanged. -/
def summarizeVideoTranscript (transcript : String) : String :=
  if transcript.length > 15000 then String.mk (transcript.data.take 15000) ++ truncMarker
  else transcript

/-- `summarize_video` of the YouTube page, after the service-availability
guard: the transcript fetch (an external collaborator, here an oracle
argument) either reports an error dict, or its transcript is truncated and
passed to `GroqService.summarize_youtube` with no title and no model
override. -/
def summarize_video (transport : Transport)
    (transcriptFetch : Except String String) : RDict :=
  match transcriptFetch with
  | .error e => [("error", Json.str e)]
  | .ok transcript =>
    GroqService.summarize_youtube transport (summarizeVideoTranscript transcript) "" none

/-- The ordered extraction-strategy candidates the spec describes for
`_extract_json`: the interior of a `\x60\x60\x60json`-tagged fenced block
when one matches, else nothing; the interior of any fenced block when one
matches, else nothing; and the raw text, always available. -/
def extract_json_strategies (content : String) : List (Option String) :=
  [(searchTagged content.data).map String.mk,
   (searchAny content.data).map String.mk,
   some content]

/-- Modelled from the spec: the claimed semantics of `_extract_json` —
try the strategies "in sequence until one succeeds or all fail", i.e.
return the first strategy whose candidate text is valid JSON. -/
def extract_json_claimed (content : String) : Option Json :=
  (extract_json_strategies content).findSome? (fun c => c.bind jsonLoads)


/-! ### Sanity checks on the embedding (concrete evaluations) -/

example : fenceJsonOpen = "\x60\x60\x60json".data := rfl
example : fenceTicks = "\x60\x60\x60".data := rfl

example : jsonLoads "\x7b\"score\": 1\x7d" = some (.obj [("score", .num 1)]) := rfl
example : jsonLoads "not json" = none := rfl
example : jsonLoads " [1, -2, true, null, \"a\"] " =
    some (.arr [.num 1, .num (-2), .bool true, .null, .str "a"]) := rfl
example : jsonLoads "\x7b\"a\": \x7b\x7d, \"b\": []\x7d" =
    some (.obj [("a", .obj []), ("b", .arr [])]) := rfl
example : jsonLoads "\x7b\"a\": 1\x7d extra" = none := rfl
example : jsonLoads "01" = none := rfl
example : jsonLoads "1.5" = none := rfl
example : extract_json "\x60\x60\x60json\n\x7b\"a\": 1\x7d\n\x60\x60\x60" =
    some (.obj [("a", .num 1)]) := rfl
example : extract_json "text \x60\x60\x60\n\x7b\"a\": 1\x7d\n\x60\x60\x60 tail" =
    some (.obj [("a", .num 1)]) := rfl
example : extract_json "\x7b\"a\": 1\x7d" = some (.obj [("a", .num 1)]) := rfl
example : extract_json "\x7b\"a\": \"\x60\x60\x60json x \x60\x60\x60\"\x7d" = none := rfl

/-! ### Helper lemmas -/

theorem str_data_append (s t : String) : (s ++ t).data = s.data ++ t.data := rfl

theorem str_mk_data (s : String) : String.mk s.data = s := rfl

theorem isPrefixOf_append_self (p r : List Char) : p.isPrefixOf (p ++ r) = true := by
  induction p with
  | nil => simp [List.isPrefixOf]
  | cons c t ih => simp [List.isPrefixOf, ih]

theorem containsSub_append_right (p n : List Char) : containsSub (p ++ n) n = true := by
  induction p with
  | nil =>
    cases n with
    | nil => rfl
    | cons c t =>
      have h := isPrefixOf_append_self (c :: t) []
      rw [List.append_nil] at h
      simp [containsSub, h]
  | cons c t ih => simp [containsSub, ih]

theorem fenceTicks_not_prefix_of_cons (c : Char) (l : List Char) (hc : c ≠ tickChar) :
    fenceTicks.isPrefixOf (c :: l) = false := by
  have hb : (tickChar == c) = false := beq_eq_false_iff_ne.mpr (Ne.symm hc)
  simp [fenceTicks, List.isPrefixOf, hb]

theorem fenceJsonOpen_not_prefix_of_cons (c : Char) (l : List Char) (hc : c ≠ tickChar) :
    fenceJsonOpen.isPrefixOf (c :: l) = false := by
  have hb : (tickChar == c) = false := beq_eq_false_iff_ne.mpr (Ne.symm hc)
  simp [fenceJsonOpen, List.isPrefixOf, hb]

theorem searchTagged_append_left (pre l : List Char)
    (h : ∀ c ∈ pre, c ≠ tickChar) :
    searchTagged (pre ++ l) = searchTagged l := by
  induction pre with
  | nil => rfl
  | cons c t ih =>
    have hc : c ≠ tickChar := h c (by simp)
    rw [List.cons_append, searchTagged,
      fenceJsonOpen_not_prefix_of_cons c (t ++ l) hc]
    simp only [Bool.false_eq_true, if_false]
    exact ih (fun c hc2 => h c (by simp [hc2]))

theorem searchTagged_none_of_noTick (l : List Char)
    (h : ∀ c ∈ l, c ≠ tickChar) : searchTagged l = none := by
  induction l with
  | nil => rfl
  | cons c t ih =>
    have hc : c ≠ tickChar := h c (by simp)
    rw [searchTagged, fenceJsonOpen_not_prefix_of_cons c t hc]
    simp only [Bool.false_eq_true, if_false]
    exact ih (fun c hc2 => h c (by simp [hc2]))

theorem searchAny_none_of_noTick (l : List Char)
    (h : ∀ c ∈ l, c ≠ tickChar) : searchAny l = none := by
  induction l with
  | nil => rfl
  | cons c t ih =>
    have hc : c ≠ tickChar := h c (by simp)
    rw [searchAny, fenceTicks_not_prefix_of_cons c t hc]
    simp only [Bool.false_eq_true, if_false]
    exact ih (fun c hc2 => h c (by simp [hc2]))

theorem dropWhile_append_of_all (p : Char → Bool) (w l : List Char)
    (h : ∀ c ∈ w, p c = true) :
    List.dropWhile p (w ++ l) = List.dropWhile p l := by
  induction w with
  | nil => rfl
  | cons c t ih =>
    rw [List.cons_append, List.dropWhile_cons, h c (by simp)]
    simp only [if_true]
    exact ih (fun c hc => h c (by simp [hc]))

theorem dropWhile_head_false (p : Char → Bool) (c : Char) (t l : List Char)
    (hc : p c = false) :
    List.dropWhile p ((c :: t) ++ l) = (c :: t) ++ l := by
  rw [List.cons_append, List.dropWhile_cons, hc]
  simp

theorem findTicksIdx_append (xs r : List Char) (h : ∀ c ∈ xs, c ≠ tickChar) :
    findTicksIdx (xs ++ r) = (findTicksIdx r).map (fun q => xs.length + q) := by
  induction xs with
  | nil => simp
  | cons c t ih =>
    have hc : c ≠ tickChar := h c (by simp)
    rw [List.cons_append, findTicksIdx,
      fenceTicks_not_prefix_of_cons c (t ++ r) hc]
    simp only [Bool.false_eq_true, if_false]
    rw [ih (fun c hc2 => h c (by simp [hc2]))]
    cases findTicksIdx r with
    | none => rfl
    | some q => simp [Option.map]; omega

theorem findTicksIdx_at_ticks (post : List Char) :
    findTicksIdx (fenceTicks ++ post) = some 0 := by
  have h : fenceTicks.isPrefixOf (fenceTicks ++ post) = true :=
    isPrefixOf_append_self fenceTicks post
  rw [show fenceTicks ++ post = tickChar :: (tickChar :: tickChar :: post) from rfl] at h ⊢
  rw [findTicksIdx]
  simp [h]

theorem dropTrailingWs_append_ws (s w2 : List Char)
    (hw2 : ∀ c ∈ w2, isWs c = true)
    (hlast : dropTrailingWs s = s) :
    dropTrailingWs (s ++ w2) = s := by
  unfold dropTrailingWs at *
  rw [List.reverse_append]
  rw [dropWhile_append_of_all isWs w2.reverse s.reverse
    (fun c hc => hw2 c (by simpa using hc))]
  have h2 : s.reverse.dropWhile isWs = s.reverse := by
    have h3 := congrArg List.reverse hlast
    rwa [List.reverse_reverse] at h3
  rw [h2, List.reverse_reverse]

theorem ws_ne_tick (c : Char) (h : isWs c = true) : c ≠ tickChar := by
  intro hx
  rw [hx] at h
  exact absurd h (by decide)

theorem captureFence_eq (rest : List Char) :
    captureFence rest =
      match findTicksIdx (rest.dropWhile isWs) with
      | some q => some (dropTrailingWs ((rest.dropWhile isWs).take q))
      | none => none := rfl

theorem captureFence_shape (w1 s w2 post : List Char)
    (hw1 : ∀ c ∈ w1, isWs c = true)
    (hw2 : ∀ c ∈ w2, isWs c = true)
    (hsT : ∀ c ∈ s, c ≠ tickChar)
    (hs_ne : s ≠ [])
    (hhead : s.dropWhile isWs = s)
    (hlast : dropTrailingWs s = s) :
    captureFence (w1 ++ (s ++ (w2 ++ (fenceTicks ++ post)))) = some s := by
  obtain ⟨c, t, rfl⟩ : ∃ c t, s = c :: t := by
    cases s with
    | nil => exact absurd rfl hs_ne
    | cons c t => exact ⟨c, t, rfl⟩
  have hc_ws : isWs c = false := by
    have h0 := (List.dropWhile_eq_self_iff.mp hhead) (by simp)
    simpa using h0
  have hT : ∀ x ∈ (c :: t) ++ w2, x ≠ tickChar := by
    intro x hx
    rcases List.mem_append.mp hx with h1 | h2
    · exact hsT x h1
    · exact ws_ne_tick x (hw2 x h2)
  have e1 : (w1 ++ ((c :: t) ++ (w2 ++ (fenceTicks ++ post)))).dropWhile isWs
      = (c :: t) ++ (w2 ++ (fenceTicks ++ post)) := by
    rw [dropWhile_append_of_all isWs w1 _ hw1]
    exact dropWhile_head_false isWs c t _ hc_ws
  have hassoc : (c :: t) ++ (w2 ++ (fenceTicks ++ post))
      = ((c :: t) ++ w2) ++ (fenceTicks ++ post) := (List.append_assoc _ _ _).symm
  have e2 : findTicksIdx ((c :: t) ++ (w2 ++ (fenceTicks ++ post)))
      = some ((c :: t) ++ w2).length := by
    rw [hassoc, findTicksIdx_append _ _ hT, findTicksIdx_at_ticks]
    simp
  have e3 : ((c :: t) ++ (w2 ++ (fenceTicks ++ post))).take ((c :: t) ++ w2).length
      = (c :: t) ++ w2 := by
    rw [hassoc]
    exact List.take_left _ _
  rw [captureFence_eq, e1, e2]
  simp only
  rw [e3, dropTrailingWs_append_ws (c :: t) w2 hw2 hlast]

theorem searchTagged_fenced (pre w1 s w2 post : List Char)
    (hpre : ∀ c ∈ pre, c ≠ tickChar)
    (hw1 : ∀ c ∈ w1, isWs c = true)
    (hw2 : ∀ c ∈ w2, isWs c = true)
    (hsT : ∀ c ∈ s, c ≠ tickChar)
    (hs_ne : s ≠ [])
    (hhead : s.dropWhile isWs = s)
    (hlast : dropTrailingWs s = s) :
    searchTagged (pre ++ (fenceJsonOpen ++ (w1 ++ (s ++ (w2 ++ (fenceTicks ++ post))))))
      = some s := by
  rw [searchTagged_append_left pre _ hpre]
  have hpf : fenceJsonOpen.isPrefixOf
      (fenceJsonOpen ++ (w1 ++ (s ++ (w2 ++ (fenceTicks ++ post))))) = true :=
    isPrefixOf_append_self _ _
  rw [show fenceJsonOpen ++ (w1 ++ (s ++ (w2 ++ (fenceTicks ++ post))))
      = tickChar :: (tickChar :: tickChar :: 'j' :: 's' :: 'o' :: 'n'
          :: (w1 ++ (s ++ (w2 ++ (fenceTicks ++ post))))) from rfl] at hpf ⊢
  rw [searchTagged]
  simp only [hpf, if_true]
  rw [show (tickChar :: (tickChar :: tickChar :: 'j' :: 's' :: 'o' :: 'n'
      :: (w1 ++ (s ++ (w2 ++ (fenceTicks ++ post)))))).drop 7
      = w1 ++ (s ++ (w2 ++ (fenceTicks ++ post))) from rfl]
  rw [captureFence_shape w1 s w2 post hw1 hw2 hsT hs_ne hhead hlast]

/-! ### Claim theorems -/

/-- C2: for a well-formed JSON object embedded in a tagged fenced block
(backtick-free prose before the block, whitespace padding inside the fence,
a payload with no stray backticks or outer whitespace — the shape of a
fenced block), `_extract_json` returns exactly the result of parsing the
block interior directly; and on the same payload given bare, with no
fencing, it still returns that parsed object. -/
theorem extract_json_fenced_roundtrip (pre w1 s w2 post : String) (j : Json)
    (hpre : ∀ c ∈ pre.data, c ≠ tickChar)
    (hw1 : ∀ c ∈ w1.data, isWs c = true)
    (hw2 : ∀ c ∈ w2.data, isWs c = true)
    (hsT : ∀ c ∈ s.data, c ≠ tickChar)
    (hhead : s.data.dropWhile isWs = s.data)
    (hlast : dropTrailingWs s.data = s.data)
    (hparse : jsonLoads s = some j) :
    extract_json (pre ++ "\x60\x60\x60json" ++ w1 ++ s ++ w2 ++ "\x60\x60\x60" ++ post)
      = some j
    ∧ extract_json s = some j := by
  have hs_ne : s.data ≠ [] := by
    intro h0
    have hs0 : s = "" := by
      cases s with
      | mk d => exact congrArg String.mk h0
    rw [hs0] at hparse
    rw [show jsonLoads "" = (none : Option Json) from rfl] at hparse
    cases hparse
  constructor
  · have hf1 : "\x60\x60\x60json".data = fenceJsonOpen := rfl
    have hf2 : "\x60\x60\x60".data = fenceTicks := rfl
    have hdata : (pre ++ "\x60\x60\x60json" ++ w1 ++ s ++ w2 ++ "\x60\x60\x60" ++ post).data
        = pre.data ++ (fenceJsonOpen
            ++ (w1.data ++ (s.data ++ (w2.data ++ (fenceTicks ++ post.data))))) := by
      simp only [str_data_append, List.append_assoc]
      rfl
    have hsearch := searchTagged_fenced pre.data w1.data s.data w2.data post.data
      hpre hw1 hw2 hsT hs_ne hhead hlast
    unfold extract_json
    rw [hdata, hsearch]
    simp only
    rw [str_mk_data]
    exact hparse
  · have h1 : searchTagged s.data = none := searchTagged_none_of_noTick s.data hsT
    have h2 : searchAny s.data = none := searchAny_none_of_noTick s.data hsT
    unfold extract_json
    rw [h1, h2]
    exact hparse

/-- C2 witness: a concrete model answer carrying `{"score": 1}` in a tagged
fenced block, and the same object bare. -/
theorem extract_json_fenced_roundtrip_witness :
    extract_json ("Sure thing:\n" ++ "\x60\x60\x60json" ++ "\n" ++ "\x7b\"score\": 1\x7d"
        ++ "\n" ++ "\x60\x60\x60" ++ "\nDone.")
      = some (Json.obj [("score", Json.num 1)])
    ∧ extract_json "\x7b\"score\": 1\x7d" = some (Json.obj [("score", Json.num 1)]) :=
  extract_json_fenced_roundtrip "Sure thing:\n" "\n" "\x7b\"score\": 1\x7d" "\n" "\nDone."
    (Json.obj [("score", Json.num 1)])
    (by decide) (by decide) (by decide) (by decide) rfl rfl rfl

/-- C3 counterexample: on `{"a": "\x60\x60\x60json x \x60\x60\x60"}` —
a valid JSON object whose string value happens to contain a tagged fence —
`_extract_json` raises a JSON-decode error (the tagged-block strategy
matches, its interior `x` is not valid JSON, and the function never moves
on), while the raw-text strategy would have yielded the object: the claimed
"continue to the next strategy until one yields valid JSON" semantics is
false of the code. -/
theorem extract_json_strategy_sequence_cex :
    extract_json "\x7b\"a\": \"\x60\x60\x60json x \x60\x60\x60\"\x7d" = none
    ∧ jsonLoads "\x7b\"a\": \"\x60\x60\x60json x \x60\x60\x60\"\x7d"
        = some (Json.obj [("a", Json.str "\x60\x60\x60json x \x60\x60\x60")])
    ∧ extract_json_claimed "\x7b\"a\": \"\x60\x60\x60json x \x60\x60\x60\"\x7d"
        = some (Json.obj [("a", Json.str "\x60\x60\x60json x \x60\x60\x60")]) :=
  ⟨rfl, rfl, rfl⟩

/-- C3 (amended): `_extract_json` tries the extraction strategies in order
as pattern matches — the tagged fenced block, else any fenced block, else
the raw text — and parses exactly the first available candidate, raising a
JSON-decode error when that single candidate is invalid (it does not fall
through to a later strategy on a parse failure, and it never returns a
partial object: its only outputs are `json.loads` of the selected candidate
or the raised decode error). -/
theorem extract_json_first_matching_strategy (content : String) :
    extract_json content
      = ((extract_json_strategies content).findSome? id).bind jsonLoads := by
  unfold extract_json extract_json_strategies
  cases h1 : searchTagged content.data with
  | some b => simp [h1, List.findSome?]
  | none =>
    cases h2 : searchAny content.data with
    | some b => simp [h1, h2, List.findSome?]
    | none => simp [h1, h2, List.findSome?]

/-- C4: the parameter set `_call_groq` builds carries the
`reasoning_effort` hint exactly when `use_reasoning` is true and the
resolved model identifier contains the reasoning-capable family substring
`gpt-oss`; in every other case the hint field is absent (`none`), never
some other value. -/
theorem call_groq_reasoning_hint (messages : List Message) (model : Option String)
    (temperature maxTokens : Nat) (useReasoning : Bool) :
    ((GroqService.call_groq_params messages model temperature maxTokens useReasoning).reasoningEffort
        = some "medium"
      ↔ useReasoning = true
        ∧ containsSub (pyOrStr model GroqService.DEFAULT_MODEL).data "gpt-oss".data = true)
    ∧ ((GroqService.call_groq_params messages model temperature maxTokens useReasoning).reasoningEffort
          = some "medium"
       ∨ (GroqService.call_groq_params messages model temperature maxTokens useReasoning).reasoningEffort
          = none) := by
  have hfield : (GroqService.call_groq_params messages model temperature maxTokens useReasoning).reasoningEffort
      = if useReasoning && containsSub (pyOrStr model GroqService.DEFAULT_MODEL).data "gpt-oss".data
        then some "medium" else none := rfl
  rw [hfield]
  cases useReasoning with
  | false => simp
  | true =>
    cases hc : containsSub (pyOrStr model GroqService.DEFAULT_MODEL).data "gpt-oss".data with
    | false => simp [hc]
    | true => simp [hc]

/-- C9: `analyze_image` routes to the vision-capable model whenever no
override is given, builds the message content as a list of typed parts (a
text part and an image-reference part) rather than a single string, and
uses a 1024 output-token ceiling — for every override as well. -/
theorem analyze_image_request_shape (url prompt : String) (model : Option String) :
    (GroqService.analyze_image_params url prompt none).model = GroqService.IMAGE_MODEL
    ∧ (GroqService.analyze_image_params url prompt model).messages
        = [⟨"user", MsgContent.parts [ContentPart.text prompt, ContentPart.imageUrl url]⟩]
    ∧ (GroqService.analyze_image_params url prompt model).maxCompletionTokens = 1024 :=
  ⟨rfl, rfl, rfl⟩

/-- C10: `chat` dispatches exactly the fixed system prompt, then the
history entries in their original order, then the new user message — so
the dispatched list has length `history.length + 2`, and the history
segment of the dispatched list is the caller's list unchanged (the Python
code builds a fresh list and never mutates its argument; in this pure
embedding that is witnessed by the history reappearing intact inside the
result). -/
theorem chat_dispatched_messages (message : String) (history : List Message) :
    GroqService.chatMessages message history
      = ⟨"system", MsgContent.text GroqService.chatSystemPrompt⟩
          :: (history ++ [⟨"user", MsgContent.text message⟩])
    ∧ (GroqService.chatMessages message history).length = history.length + 2
    ∧ ((GroqService.chatMessages message history).drop 1).take history.length = history := by
  have h1 : GroqService.chatMessages message history
      = ⟨"system", MsgContent.text GroqService.chatSystemPrompt⟩
          :: (history ++ [⟨"user", MsgContent.text message⟩]) := by
    by_cases h : history.isEmpty
    · rw [List.isEmpty_iff.mp h]
      rfl
    · simp [GroqService.chatMessages, h]
  refine ⟨h1, ?_, ?_⟩
  · rw [h1]
    simp
  · rw [h1]
    simp only [List.drop_succ_cons, List.drop_zero]
    exact List.take_left _ _

/-- C1: with a failing transport, every feature function returns a
dictionary containing an `error` key instead of propagating the exception
(the functions are total in this embedding — nothing is raised to the
caller). -/
theorem feature_functions_error_key (transport : Transport) (e : String)
    (h : ∀ p, transport p = .error e)
    (text message style transcript videoTitle url prompt : String)
    (history : List Message) (model : Option String) :
    hasKey (GroqService.check_grammar transport text model) "error" = true
    ∧ hasKey (GroqService.chat transport message history model) "error" = true
    ∧ hasKey (GroqService.paraphrase transport text style model) "error" = true
    ∧ hasKey (GroqService.check_plagiarism transport text model) "error" = true
    ∧ hasKey (GroqService.summarize_youtube transport transcript videoTitle model) "error" = true
    ∧ hasKey (GroqService.analyze_image transport url prompt model) "error" = true := by
  refine ⟨?_, ?_, ?_, ?_, ?_, ?_⟩ <;>
    simp [GroqService.check_grammar, GroqService.chat, GroqService.paraphrase,
      GroqService.check_plagiarism, GroqService.summarize_youtube,
      GroqService.analyze_image, GroqService.call_groq, h, hasKey]

/-- C1 witness: all six feature functions at a transport that always fails
with message `boom`. -/
theorem feature_functions_error_key_witness :
    hasKey (GroqService.check_grammar (fun _ => .error "boom") "t" none) "error" = true
    ∧ hasKey (GroqService.chat (fun _ => .error "boom") "m" [] none) "error" = true
    ∧ hasKey (GroqService.paraphrase (fun _ => .error "boom") "t" "Formal" none) "error" = true
    ∧ hasKey (GroqService.check_plagiarism (fun _ => .error "boom") "t" none) "error" = true
    ∧ hasKey (GroqService.summarize_youtube (fun _ => .error "boom") "tr" "" none) "error" = true
    ∧ hasKey (GroqService.analyze_image (fun _ => .error "boom") "u" "p" none) "error" = true :=
  feature_functions_error_key (fun _ => .error "boom") "boom" (fun _ => rfl)
    "t" "m" "Formal" "tr" "" "u" "p" [] none

/-- C5: whenever the model's response is not valid JSON at any extraction
stage (`_extract_json` raises), `check_grammar` returns a result whose
`corrected_text` equals the raw model response and whose `corrections` is
the empty list, with `original_text` equal to the input. -/
theorem check_grammar_parse_fallback (transport : Transport) (text resp : String)
    (model : Option String) (hok : ∀ p, transport p = .ok resp)
    (hbad : extract_json resp = none) :
    GroqService.check_grammar transport text model
      = [("original_text", Json.str text),
         ("corrected_text", Json.str resp),
         ("corrections", Json.arr [])] := by
  simp [GroqService.check_grammar, GroqService.call_groq, hok, hbad]

/-- C5 witness: a model response that is not JSON at any stage. -/
theorem check_grammar_parse_fallback_witness :
    extract_json "not json" = none
    ∧ GroqService.check_grammar (fun _ => .ok "not json") "hi" none
        = [("original_text", Json.str "hi"),
           ("corrected_text", Json.str "not json"),
           ("corrections", Json.arr [])] :=
  ⟨rfl, check_grammar_parse_fallback (fun _ => .ok "not json") "hi" "not json" none
    (fun _ => rfl) rfl⟩

/-- C6: with a failing transport, `check_plagiarism` returns a dictionary
whose only entry is the `error` key — in particular no `plagiarism_score`
key — and the error value is the wrapped message `Groq API error: <e>`,
which preserves the original transport error text as a substring rather
than swallowing it. -/
theorem check_plagiarism_transport_failure (transport : Transport) (text e : String)
    (model : Option String) (h : ∀ p, transport p = .error e) :
    GroqService.check_plagiarism transport text model
      = [("error", Json.str ("Groq API error: " ++ e))]
    ∧ hasKey (GroqService.check_plagiarism transport text model) "plagiarism_score" = false
    ∧ containsSub ("Groq API error: " ++ e).data e.data = true := by
  have h1 : GroqService.check_plagiarism transport text model
      = [("error", Json.str ("Groq API error: " ++ e))] := by
    simp [GroqService.check_plagiarism, GroqService.call_groq, h]
  refine ⟨h1, ?_, ?_⟩
  · rw [h1]
    rfl
  · rw [str_data_append]
    exact containsSub_append_right _ _

/-- C6 witness: a transport failing with `rate limit`. -/
theorem check_plagiarism_transport_failure_witness :
    GroqService.check_plagiarism (fun _ => .error "rate limit") "txt" none
      = [("error", Json.str ("Groq API error: " ++ "rate limit"))]
    ∧ hasKey (GroqService.check_plagiarism (fun _ => .error "rate limit") "txt" none)
        "plagiarism_score" = false
    ∧ containsSub ("Groq API error: " ++ "rate limit").data "rate limit".data = true :=
  check_plagiarism_transport_failure (fun _ => .error "rate limit") "txt" "rate limit" none
    (fun _ => rfl)

/-- C7: whenever the model response parses to a JSON object,
`check_plagiarism` returns a mapping with all four keys `original_text`,
`plagiarism_score`, `flagged_sentences`, `feedback` present, substituting
the fixed defaults (score 0, empty list, default feedback text) for any key
the model omitted. -/
theorem check_plagiarism_default_filling (transport : Transport) (text resp : String)
    (model : Option String) (kvs : List (String × Json))
    (hok : ∀ p, transport p = .ok resp)
    (hparse : extract_json resp = some (Json.obj kvs)) :
    hasKey (GroqService.check_plagiarism transport text model) "original_text" = true
    ∧ hasKey (GroqService.check_plagiarism transport text model) "plagiarism_score" = true
    ∧ hasKey (GroqService.check_plagiarism transport text model) "flagged_sentences" = true
    ∧ hasKey (GroqService.check_plagiarism transport text model) "feedback" = true
    ∧ rget (GroqService.check_plagiarism transport text model) "original_text"
        = some (Json.str text)
    ∧ (objGet kvs "plagiarism_score" = none →
        rget (GroqService.check_plagiarism transport text model) "plagiarism_score"
          = some (Json.num 0))
    ∧ (objGet kvs "flagged_sentences" = none →
        rget (GroqService.check_plagiarism transport text model) "flagged_sentences"
          = some (Json.arr []))
    ∧ (objGet kvs "feedback" = none →
        rget (GroqService.check_plagiarism transport text model) "feedback"
          = some (Json.str "No issues detected in the text.")) := by
  have h1 : GroqService.check_plagiarism transport text model
      = [("original_text", Json.str text),
         ("plagiarism_score", (objGet kvs "plagiarism_score").getD (Json.num 0)),
         ("flagged_sentences", (objGet kvs "flagged_sentences").getD (Json.arr [])),
         ("feedback", (objGet kvs "feedback").getD
            (Json.str "No issues detected in the text."))] := by
    simp [GroqService.check_plagiarism, GroqService.call_groq, hok, hparse]
  rw [h1]
  refine ⟨rfl, rfl, rfl, rfl, rfl, ?_, ?_, ?_⟩
  · intro h
    rw [h]
    rfl
  · intro h
    rw [h]
    rfl
  · intro h
    rw [h]
    rfl

/-- C7 witness: a response carrying an object with only a score; the other
keys are default-filled. -/
theorem check_plagiarism_default_filling_witness :
    extract_json "\x7b\"plagiarism_score\": 55\x7d"
      = some (Json.obj [("plagiarism_score", Json.num 55)])
    ∧ (objGet [("plagiarism_score", Json.num 55)] "feedback" = none
       ∧ rget (GroqService.check_plagiarism
            (fun _ => .ok "\x7b\"plagiarism_score\": 55\x7d") "txt" none) "feedback"
          = some (Json.str "No issues detected in the text."))
    ∧ hasKey (GroqService.check_plagiarism
        (fun _ => .ok "\x7b\"plagiarism_score\": 55\x7d") "txt" none) "plagiarism_score"
        = true :=
  ⟨rfl,
   ⟨rfl, (check_plagiarism_default_filling
      (fun _ => .ok "\x7b\"plagiarism_score\": 55\x7d") "txt"
      "\x7b\"plagiarism_score\": 55\x7d" none [("plagiarism_score", Json.num 55)]
      (fun _ => rfl) rfl).2.2.2.2.2.2.2 rfl⟩,
   (check_plagiarism_default_filling
      (fun _ => .ok "\x7b\"plagiarism_score\": 55\x7d") "txt"
      "\x7b\"plagiarism_score\": 55\x7d" none [("plagiarism_score", Json.num 55)]
      (fun _ => rfl) rfl).2.1⟩

/-- C8 counterexample: a transcript of 15001 characters is dispatched as
its first 15000 characters plus the truncation marker, a string of 15026
characters — the dispatched transcript does exceed the 15000-character
bound the claim states. -/
theorem summarize_video_truncation_cex :
    15000 < (String.mk (List.replicate 15001 'a')).length
    ∧ (summarizeVideoTranscript (String.mk (List.replicate 15001 'a'))).length = 15026
    ∧ 15000 < (summarizeVideoTranscript (String.mk (List.replicate 15001 'a'))).length := by
  have hlen : (String.mk (List.replicate 15001 'a')).length = 15001 := by
    show (List.replicate 15001 'a').length = 15001
    rw [List.length_replicate]
  have hgt : 15000 < (String.mk (List.replicate 15001 'a')).length := by
    rw [hlen]
    norm_num
  have h2 : (summarizeVideoTranscript (String.mk (List.replicate 15001 'a'))).length
      = 15026 := by
    unfold summarizeVideoTranscript
    rw [if_pos hgt]
    rw [String.length_append]
    have h3 : (String.mk ((String.mk (List.replicate 15001 'a')).data.take 15000)).length
        = 15000 := by
      show ((List.replicate 15001 'a').take 15000).length = 15000
      rw [List.length_take, List.length_replicate]
      omega
    rw [h3]
    rfl
  exact ⟨hgt, h2, by rw [h2]; norm_num⟩

/-- C8 (amended): transcripts longer than 15000 characters are dispatched
as exactly the first 15000 characters followed by the truncation marker,
so the dispatched transcript never exceeds 15000 characters *plus the
26-character marker* (not 15000 itself); transcripts of at most 15000
characters are dispatched unchanged. -/
theorem summarize_video_truncation (t : String) :
    (summarizeVideoTranscript t).length ≤ 15000 + truncMarker.length
    ∧ (15000 < t.length →
        summarizeVideoTranscript t = String.mk (t.data.take 15000) ++ truncMarker
        ∧ (summarizeVideoTranscript t).length = 15000 + truncMarker.length)
    ∧ (t.length ≤ 15000 → summarizeVideoTranscript t = t) := by
  by_cases h : 15000 < t.length
  · have he : summarizeVideoTranscript t = String.mk (t.data.take 15000) ++ truncMarker := by
      unfold summarizeVideoTranscript
      rw [if_pos h]
    have hlen : (summarizeVideoTranscript t).length = 15000 + truncMarker.length := by
      rw [he, String.length_append]
      congr 1
      show (t.data.take 15000).length = 15000
      rw [List.length_take]
      have hdl : t.data.length = t.length := rfl
      omega
    exact ⟨by rw [hlen], fun _ => ⟨he, hlen⟩, fun hle => absurd h (by omega)⟩
  · have he : summarizeVideoTranscript t = t := by
      unfold summarizeVideoTranscript
      rw [if_neg h]
    have hm : truncMarker.length = 26 := rfl
    exact ⟨by rw [he, hm]; omega, fun hgt => absurd hgt h, fun _ => he⟩

/-- C8 witness: the truncating branch at a 15001-character transcript and
the pass-through branch at a short one. -/
theorem summarize_video_truncation_witness :
    (15000 < (String.mk (List.replicate 15001 'b')).length
      ∧ summarizeVideoTranscript (String.mk (List.replicate 15001 'b'))
          = String.mk ((String.mk (List.replicate 15001 'b')).data.take 15000) ++ truncMarker)
    ∧ ("hi".length ≤ 15000 ∧ summarizeVideoTranscript "hi" = "hi") := by
  have hb : 15000 < (String.mk (List.replicate 15001 'b')).length := by
    show 15000 < (List.replicate 15001 'b').length
    rw [List.length_replicate]
    norm_num
  have hs : "hi".length ≤ 15000 := by decide
  exact ⟨⟨hb, ((summarize_video_truncation (String.mk (List.replicate 15001 'b'))).2.1 hb).1⟩,
    ⟨hs, (summarize_video_truncation "hi").2.2 hs⟩⟩
